import Mathlib

/-!
Shallow embedding of `WaitForConfirmation` from `rmf_task_sequence`
(files `events/WaitForConfirmation.cpp` and the live ROS2 variant).

Durations and time points (`rmf_traffic::Duration`, `rmf_traffic::Time`,
i.e. `std::chrono` nanosecond counts) are embedded as `Int`; the claims do
not concern 64-bit overflow.  Battery state of charge and thresholds
(`double`) are embedded as `ℚ`; the comparisons in the source are the
exact order comparisons `< 0.0` and `<= threshold_soc`.  `std::optional`
fields become `Option`; a call of `.value()` on an empty optional throws
`std::bad_optional_access` in C++, which the embedding records as the
`crash` outcome.
-/

/-- `rmf_task::State`, restricted to the two fields this event reads:
`state.time()` and `state.battery_soc()`, both optional. -/
structure RMFState where
  time : Option Int
  battery_soc : Option ℚ
deriving DecidableEq, Repr

/-- `rmf_task::Constraints`, restricted to the two accessors this event
reads: `drain_battery()` and `threshold_soc()`. -/
structure Constraints where
  drain_battery : Bool
  threshold_soc : ℚ
deriving DecidableEq, Repr

/-- `rmf_task::Estimate`: a finish state paired with a wait-until time. -/
structure Estimate where
  finish_state : RMFState
  wait_until : Int
deriving DecidableEq, Repr

/-- Outcome of one `estimate_finish` call: either the C++ call throws
`bad_optional_access` (`crash`, from `.value()` on an unset optional), or
it returns normally with `std::optional<Estimate>` (`ok`). -/
inductive EFResult where
  | crash : EFResult
  | ok : Option Estimate → EFResult
deriving DecidableEq, Repr

/-- `rmf_task::Parameters`, restricted to the one accessor this event
reads: `ambient_sink()`, an optional power sink exposing
`compute_change_in_charge(seconds) -> charge_delta`. -/
structure Parameters where
  ambient_sink : Option (ℚ → ℚ)

/-- `rmf_traffic::time::to_seconds`: nanosecond count to seconds. -/
def to_seconds (d : Int) : ℚ := (d : ℚ) / 1000000000

/-- The live `WaitForConfirmation::Model` (ROS2 variant): the fields of the
C++ class that the estimation logic reads or writes.  The `mutable` fields
`_confirmation_received` and `_confirmation_request_time` are threaded
explicitly: operations return the updated `Model`. -/
structure Model where
  invariant_finish_state : RMFState
  invariant_battery_drain : ℚ
  initial_wait_duration : Int
  timeout_duration : Int
  confirmation_received : Bool
  confirmation_request_time : Int
  task_uuid : String
deriving DecidableEq, Repr

/-- `WaitForConfirmation::Model::request_confirmation`: publishes the task
UUID (I/O, not modelled) and records `now` as the confirmation request
time. -/
def request_confirmation (now : Int) (m : Model) : Model :=
  { m with confirmation_request_time := now }

/-- `WaitForConfirmation::Model::on_confirmation_received`: latches the
confirmation flag exactly when the inbound message carries this task
instance's UUID; otherwise the message is discarded. -/
def on_confirmation_received (msg : String) (m : Model) : Model :=
  if msg = m.task_uuid then { m with confirmation_received := true } else m

/-- Inbound delivery on the shared response topic: every live estimator's
subscription callback runs on the message. -/
def deliver_confirmation (msg : String) (estimators : List Model) : List Model :=
  estimators.map (on_confirmation_received msg)

/-- The live `WaitForConfirmation::Model::Model` constructor: computes the
invariant battery drain from the ambient sink applied to the initial wait
duration clamped at zero (zero drain when no sink is configured), starts
unconfirmed, and issues the initial confirmation request (recording `now`).
`task_uuid` stands for the random UUID generated in the constructor. -/
def Model.make (invariant_initial_state : RMFState)
    (initial_wait_duration timeout_duration : Int)
    (parameters : Parameters) (task_uuid : String) (now : Int) : Model :=
  let drain : ℚ :=
    match parameters.ambient_sink with
    | some sink =>
      let duration := if initial_wait_duration < 0 then 0 else initial_wait_duration
      sink (to_seconds duration)
    | none => 0
  request_confirmation now
    { invariant_finish_state := invariant_initial_state
      invariant_battery_drain := drain
      initial_wait_duration := initial_wait_duration
      timeout_duration := timeout_duration
      confirmation_received := false
      confirmation_request_time := 0
      task_uuid := task_uuid }

/-- The live `WaitForConfirmation::Model::estimate_finish`.  `now` stands
for `std::chrono::steady_clock::now()` sampled at the top of the call.
Returns the call outcome together with the estimator's updated mutable
state (only `request_confirmation` in the waiting branch changes it). -/
def estimate_finish (m : Model) (now : Int) (state : RMFState)
    (earliest_arrival_time : Int) (constraints : Constraints) :
    EFResult × Model :=
  let elapsed_time := now - m.confirmation_request_time
  if !m.confirmation_received then
    if elapsed_time > m.timeout_duration then
      (EFResult.ok none, m)
    else
      match state.time with
      | none => (EFResult.crash, m)
      | some t =>
        let state1 : RMFState := { state with time := some (t + m.initial_wait_duration) }
        let m1 := request_confirmation now m
        if constraints.drain_battery then
          match state1.battery_soc with
          | none => (EFResult.crash, m1)
          | some soc =>
            let new_battery_soc := soc - m1.invariant_battery_drain
            if new_battery_soc < 0 then
              (EFResult.ok none, m1)
            else
              let state2 : RMFState := { state1 with battery_soc := some new_battery_soc }
              match state2.battery_soc with
              | none => (EFResult.crash, m1)
              | some soc2 =>
                if soc2 ≤ constraints.threshold_soc then
                  (EFResult.ok none, m1)
                else
                  (EFResult.ok (some ⟨state2, earliest_arrival_time⟩), m1)
        else
          match state1.battery_soc with
          | none => (EFResult.crash, m1)
          | some soc2 =>
            if soc2 ≤ constraints.threshold_soc then
              (EFResult.ok none, m1)
            else
              (EFResult.ok (some ⟨state1, earliest_arrival_time⟩), m1)
  else
    if constraints.drain_battery then
      match state.battery_soc with
      | none => (EFResult.crash, m)
      | some soc =>
        let new_battery_soc := soc - m.invariant_battery_drain
        if new_battery_soc < 0 then
          (EFResult.ok none, m)
        else
          let state1 : RMFState := { state with battery_soc := some new_battery_soc }
          match state1.battery_soc with
          | none => (EFResult.crash, m)
          | some soc2 =>
            if soc2 ≤ constraints.threshold_soc then
              (EFResult.ok none, m)
            else
              match state1.time with
              | none => (EFResult.crash, m)
              | some t => (EFResult.ok (some ⟨state1, t⟩), m)
    else
      match state.battery_soc with
      | none => (EFResult.crash, m)
      | some soc2 =>
        if soc2 ≤ constraints.threshold_soc then
          (EFResult.ok none, m)
        else
          match state.time with
          | none => (EFResult.crash, m)
          | some t => (EFResult.ok (some ⟨state, t⟩), m)

/-- The live `WaitForConfirmation::Model::invariant_duration`: zero once
confirmed, otherwise the initial wait duration. -/
def invariant_duration (m : Model) : Int :=
  if m.confirmation_received then 0 else m.initial_wait_duration

/-- `WaitForConfirmation::Description`: the template's configuration. -/
structure Description where
  initial_wait_duration : Int
  timeout_duration : Int
deriving DecidableEq, Repr

/-- `WaitForConfirmation::Description::make`: constructs the description
from the two durations; it never fails. -/
def Description.make (initial_wait_duration timeout_duration : Int) : Description :=
  ⟨initial_wait_duration, timeout_duration⟩

/-- The live `WaitForConfirmation::Description::make_model`: manufactures
a fresh `Model` from the stored durations, the given initial state and
parameters. -/
def Description.make_model (d : Description) (invariant_initial_state : RMFState)
    (parameters : Parameters) (task_uuid : String) (now : Int) : Model :=
  Model.make invariant_initial_state d.initial_wait_duration d.timeout_duration
    parameters task_uuid now

/-- The simplified `WaitForConfirmation::Model` of
`src/rmf_task_sequence/src/rmf_task_sequence/events/WaitForConfirmation.cpp`:
no confirmation flag, no timeout check, it always advances. -/
structure SimpleModel where
  invariant_finish_state : RMFState
  invariant_battery_drain : ℚ
  initial_wait_duration : Int
  timeout_duration : Int
deriving DecidableEq, Repr

/-- `estimate_finish` of the simplified variant: advance the state time by
the initial wait duration, optionally drain the battery, enforce the
threshold, and finish at `earliest_arrival_time`. -/
def estimate_finish_simple (m : SimpleModel) (state : RMFState)
    (earliest_arrival_time : Int) (constraints : Constraints) : EFResult :=
  match state.time with
  | none => EFResult.crash
  | some t =>
    let state1 : RMFState := { state with time := some (t + m.initial_wait_duration) }
    if constraints.drain_battery then
      match state1.battery_soc with
      | none => EFResult.crash
      | some soc =>
        let new_battery_soc := soc - m.invariant_battery_drain
        if new_battery_soc < 0 then
          EFResult.ok none
        else
          let state2 : RMFState := { state1 with battery_soc := some new_battery_soc }
          match state2.battery_soc with
          | none => EFResult.crash
          | some soc2 =>
            if soc2 ≤ constraints.threshold_soc then
              EFResult.ok none
            else
              EFResult.ok (some ⟨state2, earliest_arrival_time⟩)
    else
      match state1.battery_soc with
      | none => EFResult.crash
      | some soc2 =>
        if soc2 ≤ constraints.threshold_soc then
          EFResult.ok none
        else
          EFResult.ok (some ⟨state1, earliest_arrival_time⟩)

/-! ### Branch characterizations of `estimate_finish` -/

/-- Waiting branch, timeout exceeded: the call rejects with `None` and
leaves the estimator untouched. -/
lemma ef_unconfirmed_timeout (m : Model) (now : Int) (state : RMFState)
    (eat : Int) (c : Constraints) (h1 : m.confirmation_received = false)
    (h2 : m.timeout_duration < now - m.confirmation_request_time) :
    estimate_finish m now state eat c = (EFResult.ok none, m) := by
  simp [estimate_finish, h1, h2]

/-- Waiting branch, within the timeout, both optionals set, battery drain
disabled: the time is advanced by one wait interval, the request time is
refreshed, and the threshold check alone decides the outcome. -/
lemma ef_unconfirmed_live_nodrain (m : Model) (now : Int) (state : RMFState)
    (eat : Int) (c : Constraints) (h1 : m.confirmation_received = false)
    (h2 : now - m.confirmation_request_time ≤ m.timeout_duration)
    (hdrain : c.drain_battery = false) (t : Int) (soc : ℚ)
    (ht : state.time = some t) (hb : state.battery_soc = some soc) :
    estimate_finish m now state eat c =
      (if soc ≤ c.threshold_soc then
        (EFResult.ok none, request_confirmation now m)
      else
        (EFResult.ok (some ⟨⟨some (t + m.initial_wait_duration), some soc⟩, eat⟩),
          request_confirmation now m)) := by
  simp [estimate_finish, h1, ht, hb, hdrain, not_lt.mpr h2, request_confirmation]

/-- Waiting branch, within the timeout, both optionals set, battery drain
enabled: the time is advanced, the request time refreshed, one interval's
drain is subtracted, and the two battery checks decide the outcome. -/
lemma ef_unconfirmed_live_drain (m : Model) (now : Int) (state : RMFState)
    (eat : Int) (c : Constraints) (h1 : m.confirmation_received = false)
    (h2 : now - m.confirmation_request_time ≤ m.timeout_duration)
    (hdrain : c.drain_battery = true) (t : Int) (soc : ℚ)
    (ht : state.time = some t) (hb : state.battery_soc = some soc) :
    estimate_finish m now state eat c =
      (if soc - m.invariant_battery_drain < 0 then
        (EFResult.ok none, request_confirmation now m)
      else if soc - m.invariant_battery_drain ≤ c.threshold_soc then
        (EFResult.ok none, request_confirmation now m)
      else
        (EFResult.ok (some ⟨⟨some (t + m.initial_wait_duration),
            some (soc - m.invariant_battery_drain)⟩, eat⟩),
          request_confirmation now m)) := by
  simp [estimate_finish, h1, ht, hb, hdrain, not_lt.mpr h2, request_confirmation]

/-- Confirmed branch, battery set, drain disabled: no time advance, no
request refresh; the threshold check decides, and on success the finish
time is the state's own (possibly unset, then the call crashes) time. -/
lemma ef_confirmed_nodrain (m : Model) (now : Int) (state : RMFState)
    (eat : Int) (c : Constraints) (h1 : m.confirmation_received = true)
    (hdrain : c.drain_battery = false) (soc : ℚ)
    (hb : state.battery_soc = some soc) :
    estimate_finish m now state eat c =
      (if soc ≤ c.threshold_soc then
        (EFResult.ok none, m)
      else
        match state.time with
        | none => (EFResult.crash, m)
        | some t => (EFResult.ok (some ⟨⟨some t, some soc⟩, t⟩), m)) := by
  obtain ⟨st, sb⟩ := state
  change sb = some soc at hb
  subst hb
  cases st <;> simp [estimate_finish, h1, hdrain]

/-- Confirmed branch, battery set, drain enabled: no time advance, no
request refresh; one interval's drain is subtracted and the two battery
checks decide; on success the finish time is the state's own (possibly
unset, then the call crashes) time. -/
lemma ef_confirmed_drain (m : Model) (now : Int) (state : RMFState)
    (eat : Int) (c : Constraints) (h1 : m.confirmation_received = true)
    (hdrain : c.drain_battery = true) (soc : ℚ)
    (hb : state.battery_soc = some soc) :
    estimate_finish m now state eat c =
      (if soc - m.invariant_battery_drain < 0 then
        (EFResult.ok none, m)
      else if soc - m.invariant_battery_drain ≤ c.threshold_soc then
        (EFResult.ok none, m)
      else
        match state.time with
        | none => (EFResult.crash, m)
        | some t =>
          (EFResult.ok (some ⟨⟨some t, some (soc - m.invariant_battery_drain)⟩,
            t⟩), m)) := by
  obtain ⟨st, sb⟩ := state
  change sb = some soc at hb
  subst hb
  cases st <;> simp [estimate_finish, h1, hdrain]

/-- Waiting branch, within the timeout, unset time: the call throws. -/
lemma ef_unconfirmed_no_time (m : Model) (now : Int) (state : RMFState)
    (eat : Int) (c : Constraints) (h1 : m.confirmation_received = false)
    (h2 : now - m.confirmation_request_time ≤ m.timeout_duration)
    (ht : state.time = none) :
    estimate_finish m now state eat c = (EFResult.crash, m) := by
  simp [estimate_finish, h1, ht, not_lt.mpr h2]

/-- Waiting branch, within the timeout, time set but battery unset: the
threshold comparison (or the drain) throws. -/
lemma ef_unconfirmed_no_battery (m : Model) (now : Int) (state : RMFState)
    (eat : Int) (c : Constraints) (h1 : m.confirmation_received = false)
    (h2 : now - m.confirmation_request_time ≤ m.timeout_duration)
    (t : Int) (ht : state.time = some t) (hb : state.battery_soc = none) :
    estimate_finish m now state eat c =
      (EFResult.crash, request_confirmation now m) := by
  cases hdrain : c.drain_battery <;>
    simp [estimate_finish, h1, ht, hb, hdrain, not_lt.mpr h2, request_confirmation]

/-- Confirmed branch, battery unset: the call throws. -/
lemma ef_confirmed_no_battery (m : Model) (now : Int) (state : RMFState)
    (eat : Int) (c : Constraints) (h1 : m.confirmation_received = true)
    (hb : state.battery_soc = none) :
    estimate_finish m now state eat c = (EFResult.crash, m) := by
  cases hdrain : c.drain_battery <;> simp [estimate_finish, h1, hb, hdrain]

/-- On every path `estimate_finish` hands back either the estimator it was
given or that estimator with a refreshed confirmation request time. -/
lemma ef_snd (m : Model) (now : Int) (state : RMFState) (eat : Int)
    (c : Constraints) :
    (estimate_finish m now state eat c).2 = m ∨
    (estimate_finish m now state eat c).2 = request_confirmation now m := by
  by_cases hflag : m.confirmation_received = true
  · cases hb : state.battery_soc with
    | none => rw [ef_confirmed_no_battery m now state eat c hflag hb]; left; rfl
    | some soc =>
      cases hdrain : c.drain_battery
      · rw [ef_confirmed_nodrain m now state eat c hflag hdrain soc hb]
        repeat' split
        all_goals exact Or.inl rfl
      · rw [ef_confirmed_drain m now state eat c hflag hdrain soc hb]
        repeat' split
        all_goals exact Or.inl rfl
  · have hflag2 : m.confirmation_received = false := by
      simpa using hflag
    by_cases htmo : m.timeout_duration < now - m.confirmation_request_time
    · rw [ef_unconfirmed_timeout m now state eat c hflag2 htmo]; left; rfl
    · have hle : now - m.confirmation_request_time ≤ m.timeout_duration :=
        le_of_not_lt htmo
      cases ht : state.time with
      | none => rw [ef_unconfirmed_no_time m now state eat c hflag2 hle ht]; left; rfl
      | some t =>
        cases hb : state.battery_soc with
        | none =>
          rw [ef_unconfirmed_no_battery m now state eat c hflag2 hle t ht hb]
          right; rfl
        | some soc =>
          cases hdrain : c.drain_battery
          · rw [ef_unconfirmed_live_nodrain m now state eat c hflag2 hle
              hdrain t soc ht hb]
            repeat' split
            all_goals exact Or.inr rfl
          · rw [ef_unconfirmed_live_drain m now state eat c hflag2 hle
              hdrain t soc ht hb]
            repeat' split
            all_goals exact Or.inr rfl

/-- `estimate_finish` never touches the confirmation latch. -/
lemma ef_preserves_flag (m : Model) (now : Int) (state : RMFState)
    (eat : Int) (c : Constraints) :
    ((estimate_finish m now state eat c).2).confirmation_received =
      m.confirmation_received := by
  rcases ef_snd m now state eat c with h | h
  · rw [h]
  · rw [h]; rfl

/-! ### Concrete fixtures -/

/-- An unconfirmed estimator: zero drain, 5 second initial wait, 20 second
timeout, initial confirmation request recorded at time 0. -/
def waiting_model : Model :=
  ⟨⟨some 0, some 1⟩, 0, 5, 20, false, 0, "task-1"⟩

/-- The same configuration with the confirmation latch already set. -/
def confirmed_model : Model :=
  ⟨⟨some 0, some 1⟩, 0, 5, 20, true, 0, "task-1"⟩

/-- An unconfirmed estimator whose one-interval battery drain is 1. -/
def drain_model : Model :=
  ⟨⟨some 0, some 1⟩, 1, 5, 20, false, 0, "task-3"⟩

/-- An unconfirmed estimator with a 2 second timeout, long overdue. -/
def stale_model : Model :=
  ⟨⟨some 0, some 1⟩, 0, 5, 2, false, 0, "task-2"⟩

/-! ### The claims -/

/-- C4: while confirmation has not been received, a call whose elapsed
time since the last confirmation request exceeds the timeout returns
`None`, leaving the estimator untouched — the rejection is a deterministic
infeasibility verdict on the candidate schedule, not a transient error. -/
theorem c4_timeout_rejects (m : Model) (now : Int) (state : RMFState)
    (eat : Int) (c : Constraints) (h1 : m.confirmation_received = false)
    (h2 : m.timeout_duration < now - m.confirmation_request_time) :
    estimate_finish m now state eat c = (EFResult.ok none, m) :=
  ef_unconfirmed_timeout m now state eat c h1 h2

/-- Witness for C4: a concrete overdue call rejects with `None`. -/
theorem c4_timeout_rejects_witness :
    estimate_finish waiting_model 100 ⟨some 0, some 1⟩ 0 ⟨true, 0⟩ =
      (EFResult.ok none, waiting_model) :=
  c4_timeout_rejects waiting_model 100 ⟨some 0, some 1⟩ 0 ⟨true, 0⟩ rfl (by decide)

/-- C6: `invariant_duration` returns the initial wait duration while the
confirmation latch is unset and zero once it is set (stated, as the claim
does, for a non-negative configured wait duration). -/
theorem c6_invariant_duration (m : Model) (h : 0 ≤ m.initial_wait_duration) :
    (m.confirmation_received = false →
      invariant_duration m = m.initial_wait_duration) ∧
    (m.confirmation_received = true → invariant_duration m = 0) := by
  refine ⟨fun hc => ?_, fun hc => ?_⟩ <;> simp [invariant_duration, hc]

/-- Witness for C6 at the concrete fixtures. -/
theorem c6_invariant_duration_witness :
    invariant_duration waiting_model = 5 ∧ invariant_duration confirmed_model = 0 :=
  ⟨(c6_invariant_duration waiting_model (by decide)).1 rfl,
   (c6_invariant_duration confirmed_model (by decide)).2 rfl⟩

/-- C9: once a call is rejected on timeout, the estimator is unchanged (in
particular the confirmation request time is not refreshed), so repeating
the identical call under an unchanged clock rejects again. -/
theorem c9_timeout_idempotent (m : Model) (now : Int) (state : RMFState)
    (eat : Int) (c : Constraints) (h1 : m.confirmation_received = false)
    (h2 : m.timeout_duration < now - m.confirmation_request_time) :
    estimate_finish m now state eat c = (EFResult.ok none, m) ∧
    (estimate_finish (estimate_finish m now state eat c).2 now state eat c).1 =
      EFResult.ok none := by
  have h := ef_unconfirmed_timeout m now state eat c h1 h2
  exact ⟨h, by rw [h, h]⟩

/-- Witness for C9: a concrete timed-out call, repeated, rejects twice. -/
theorem c9_timeout_idempotent_witness :
    estimate_finish waiting_model 50 ⟨some 0, some 1⟩ 0 ⟨false, 0⟩ =
      (EFResult.ok none, waiting_model) ∧
    (estimate_finish (estimate_finish waiting_model 50 ⟨some 0, some 1⟩ 0
        ⟨false, 0⟩).2 50 ⟨some 0, some 1⟩ 0 ⟨false, 0⟩).1 = EFResult.ok none :=
  c9_timeout_idempotent waiting_model 50 ⟨some 0, some 1⟩ 0 ⟨false, 0⟩ rfl (by decide)

/-- C8: the confirmation flag is a one-way latch: it flips to true exactly
on an inbound message carrying this estimator's token; a mismatched token
leaves an estimator — and every other live estimator on the shared topic —
entirely unchanged; and no operation (message handling, re-requesting, or
estimation) ever resets a set latch. -/
theorem c8_confirmation_latch :
    (∀ (msg : String) (m : Model),
      (on_confirmation_received msg m).confirmation_received = true ↔
        m.confirmation_received = true ∨ msg = m.task_uuid) ∧
    (∀ (msg : String) (m : Model), msg ≠ m.task_uuid →
      on_confirmation_received msg m = m) ∧
    (∀ (msg : String) (l : List Model) (m : Model), m ∈ l → msg ≠ m.task_uuid →
      on_confirmation_received msg m = m ∧ m ∈ deliver_confirmation msg l) ∧
    (∀ (m : Model), m.confirmation_received = true →
      (∀ msg, (on_confirmation_received msg m).confirmation_received = true) ∧
      (∀ now, (request_confirmation now m).confirmation_received = true) ∧
      (∀ now state eat c,
        ((estimate_finish m now state eat c).2).confirmation_received = true)) := by
  have hmismatch : ∀ (msg : String) (m : Model), msg ≠ m.task_uuid →
      on_confirmation_received msg m = m := by
    intro msg m h
    simp [on_confirmation_received, h]
  refine ⟨?_, hmismatch, ?_, ?_⟩
  · intro msg m
    by_cases h : msg = m.task_uuid <;> simp [on_confirmation_received, h]
  · intro msg l m hm h
    refine ⟨hmismatch msg m h, ?_⟩
    have := List.mem_map_of_mem (on_confirmation_received msg) hm
    rwa [hmismatch msg m h] at this
  · intro m hm
    refine ⟨?_, ?_, ?_⟩
    · intro msg
      by_cases h : msg = m.task_uuid <;> simp [on_confirmation_received, h, hm]
    · intro now
      simpa [request_confirmation] using hm
    · intro now state eat c
      rw [ef_preserves_flag m now state eat c, hm]

/-- Witness for C8: a mismatched token leaves the fixture untouched, a
matching token latches it, and a latched fixture survives estimation. -/
theorem c8_confirmation_latch_witness :
    on_confirmation_received "other" waiting_model = waiting_model ∧
    (on_confirmation_received "task-1" waiting_model).confirmation_received = true ∧
    ((estimate_finish confirmed_model 0 ⟨some 0, some 1⟩ 0
      ⟨false, 0⟩).2).confirmation_received = true :=
  ⟨c8_confirmation_latch.2.1 "other" waiting_model (by decide),
   (c8_confirmation_latch.1 "task-1" waiting_model).mpr (Or.inr rfl),
   (c8_confirmation_latch.2.2.2 confirmed_model rfl).2.2 0 ⟨some 0, some 1⟩ 0 ⟨false, 0⟩⟩

/-- C1, counterexample to the claim as stated: with `drain_battery = false`,
a state whose SOC is at the threshold, and no timeout in play (elapsed 5
against a bound of 20), the call still returns `None` — the threshold
check runs regardless of `drain_battery`. -/
theorem c1_counterexample :
    (5 : Int) - 0 ≤ 20 ∧
    (estimate_finish waiting_model 5 ⟨some 0, some 1⟩ 100 ⟨false, 1⟩).1 =
      EFResult.ok none := by
  exact ⟨by decide, by decide⟩

/-- C1 amended: with `drain_battery = false` no drain is applied and the
negative-SOC check is skipped, but the threshold check still runs: the
call returns `None` exactly when it times out or when the (unchanged) SOC
is at or below the threshold, and a successful call leaves the SOC
untouched. -/
theorem c1_no_drain_battery (m : Model) (now : Int) (state : RMFState)
    (eat : Int) (c : Constraints) (hdrain : c.drain_battery = false)
    (t : Int) (soc : ℚ) (ht : state.time = some t)
    (hb : state.battery_soc = some soc) :
    ((estimate_finish m now state eat c).1 = EFResult.ok none ↔
      (m.confirmation_received = false ∧
        m.timeout_duration < now - m.confirmation_request_time) ∨
      soc ≤ c.threshold_soc) ∧
    (∀ e, (estimate_finish m now state eat c).1 = EFResult.ok (some e) →
      e.finish_state.battery_soc = some soc) := by
  by_cases hflag : m.confirmation_received = true
  · rw [ef_confirmed_nodrain m now state eat c hflag hdrain soc hb]
    rw [ht]
    by_cases hthr : soc ≤ c.threshold_soc
    · simp [hthr, hflag]
    · simp [hthr, hflag]
  · have hflag2 : m.confirmation_received = false := by simpa using hflag
    by_cases htmo : m.timeout_duration < now - m.confirmation_request_time
    · rw [ef_unconfirmed_timeout m now state eat c hflag2 htmo]
      simp [hflag2, htmo]
    · have hle : now - m.confirmation_request_time ≤ m.timeout_duration :=
        le_of_not_lt htmo
      rw [ef_unconfirmed_live_nodrain m now state eat c hflag2 hle hdrain t soc ht hb]
      by_cases hthr : soc ≤ c.threshold_soc
      · simp [hthr, htmo]
      · simp [hthr, htmo]

/-- Witness for C1 amended: a concrete sub-threshold, no-drain call is
rejected through the threshold arm of the characterization. -/
theorem c1_no_drain_battery_witness :
    (estimate_finish waiting_model 7 ⟨some 0, some 1⟩ 100 ⟨false, 2⟩).1 =
      EFResult.ok none :=
  (c1_no_drain_battery waiting_model 7 ⟨some 0, some 1⟩ 100 ⟨false, 2⟩ rfl
    0 1 rfl rfl).1.mpr (Or.inr (by norm_num))

/-- C7: the template accepts any durations without failure, and the model
normalizes a negative configured wait silently: the invariant battery
drain is the ambient sink applied to `max(initial_wait_duration, 0)` when
a sink is configured, and zero otherwise. -/
theorem c7_negative_duration_normalized (iw td : Int) (st : RMFState)
    (p : Parameters) (uuid : String) (now : Int) :
    (Description.make iw td).initial_wait_duration = iw ∧
    (Description.make iw td).timeout_duration = td ∧
    ((Description.make iw td).make_model st p uuid now).invariant_battery_drain =
      (match p.ambient_sink with
       | some sink => sink (to_seconds (max iw 0))
       | none => 0) := by
  refine ⟨rfl, rfl, ?_⟩
  have hmax : (if iw < 0 then (0 : Int) else iw) = max iw 0 := by
    split <;> omega
  cases hs : p.ambient_sink with
  | none =>
    simp [Description.make, Description.make_model, Model.make,
      request_confirmation, hs]
  | some sink =>
    simp [Description.make, Description.make_model, Model.make,
      request_confirmation, hs, hmax]

/-- C10, counterexample to the claim as stated: a call on a timed-out
estimator with BOTH optional fields unset returns a graceful `None`
without ever dereferencing either field — `estimate_finish` is not
unconditionally dereferencing, and an unset field can coexist with a
graceful `None`. -/
theorem c10_counterexample :
    estimate_finish stale_model 10 ⟨none, none⟩ 0 ⟨true, 0⟩ =
      (EFResult.ok none, stale_model) := by
  decide

/-- C10 amended: outside the timeout-rejection path the dereferences do
happen and an unset field throws `bad_optional_access` instead of
producing `None`: an unconfirmed in-time call crashes on an unset time,
or on a set time with unset SOC; a confirmed call crashes on an unset
SOC; only the timeout path returns `None` reading neither field.  The
simplified variant dereferences unconditionally. -/
theorem c10_optional_dereference (m : Model) (now : Int) (state : RMFState)
    (eat : Int) (c : Constraints) :
    (m.confirmation_received = false →
      now - m.confirmation_request_time ≤ m.timeout_duration →
      (state.time = none →
        (estimate_finish m now state eat c).1 = EFResult.crash) ∧
      (∀ t, state.time = some t → state.battery_soc = none →
        (estimate_finish m now state eat c).1 = EFResult.crash)) ∧
    (m.confirmation_received = true → state.battery_soc = none →
      (estimate_finish m now state eat c).1 = EFResult.crash) ∧
    (m.confirmation_received = false →
      m.timeout_duration < now - m.confirmation_request_time →
      (estimate_finish m now state eat c).1 = EFResult.ok none) ∧
    (∀ sm : SimpleModel,
      (state.time = none → estimate_finish_simple sm state eat c = EFResult.crash) ∧
      (∀ t, state.time = some t → state.battery_soc = none →
        estimate_finish_simple sm state eat c = EFResult.crash)) := by
  refine ⟨?_, ?_, ?_, ?_⟩
  · intro h1 h2
    constructor
    · intro ht
      rw [ef_unconfirmed_no_time m now state eat c h1 h2 ht]
    · intro t ht hb
      rw [ef_unconfirmed_no_battery m now state eat c h1 h2 t ht hb]
  · intro h1 hb
    rw [ef_confirmed_no_battery m now state eat c h1 hb]
  · intro h1 h2
    rw [ef_unconfirmed_timeout m now state eat c h1 h2]
  · intro sm
    constructor
    · intro ht
      simp [estimate_finish_simple, ht]
    · intro t ht hb
      cases hdrain : c.drain_battery <;>
        simp [estimate_finish_simple, ht, hb, hdrain]

/-- Witness for C10 amended: a concrete unconfirmed in-time call with the
time field unset throws. -/
theorem c10_optional_dereference_witness :
    (estimate_finish waiting_model 5 ⟨none, some 1⟩ 0 ⟨false, 0⟩).1 =
      EFResult.crash :=
  ((c10_optional_dereference waiting_model 5 ⟨none, some 1⟩ 0
    ⟨false, 0⟩).1 rfl (by decide)).1 rfl

/-- C2, counterexample to the claim as stated: in the 5s/20s scenario with
no confirmation and no battery drain, all FOUR successive calls at 5s
spacing succeed — the fourth does not return `None`, because each
successful call refreshes the confirmation request time (so elapsed is
always 5s) and the timeout comparison is strict. -/
theorem c2_counterexample :
    estimate_finish waiting_model 5 ⟨some 0, some 1⟩ 100 ⟨false, 0⟩ =
      (EFResult.ok (some ⟨⟨some 5, some 1⟩, 100⟩),
       { waiting_model with confirmation_request_time := 5 }) ∧
    estimate_finish { waiting_model with confirmation_request_time := 5 } 10
        ⟨some 5, some 1⟩ 100 ⟨false, 0⟩ =
      (EFResult.ok (some ⟨⟨some 10, some 1⟩, 100⟩),
       { waiting_model with confirmation_request_time := 10 }) ∧
    estimate_finish { waiting_model with confirmation_request_time := 10 } 15
        ⟨some 10, some 1⟩ 100 ⟨false, 0⟩ =
      (EFResult.ok (some ⟨⟨some 15, some 1⟩, 100⟩),
       { waiting_model with confirmation_request_time := 15 }) ∧
    estimate_finish { waiting_model with confirmation_request_time := 15 } 20
        ⟨some 15, some 1⟩ 100 ⟨false, 0⟩ =
      (EFResult.ok (some ⟨⟨some 20, some 1⟩, 100⟩),
       { waiting_model with confirmation_request_time := 20 }) := by
  refine ⟨by decide, by decide, by decide, by decide⟩

/-- C2 amended: the first three calls succeed, each advancing the state
time by 5s, and the fourth call succeeds as well for two independent
reasons: each successful call refreshes the request time, so its elapsed
wait is 5s; and even measured from the original request (elapsed exactly
20s) the strict `>` comparison with the 20s bound does not fire. -/
theorem c2_scenario_all_calls_succeed :
    (estimate_finish waiting_model 5 ⟨some 0, some 1⟩ 100 ⟨false, 0⟩).1 =
      EFResult.ok (some ⟨⟨some 5, some 1⟩, 100⟩) ∧
    (estimate_finish waiting_model 5 ⟨some 0, some 1⟩ 100
        ⟨false, 0⟩).2.confirmation_request_time = 5 ∧
    (estimate_finish { waiting_model with confirmation_request_time := 5 } 10
        ⟨some 5, some 1⟩ 100 ⟨false, 0⟩).1 =
      EFResult.ok (some ⟨⟨some 10, some 1⟩, 100⟩) ∧
    (estimate_finish { waiting_model with confirmation_request_time := 10 } 15
        ⟨some 10, some 1⟩ 100 ⟨false, 0⟩).1 =
      EFResult.ok (some ⟨⟨some 15, some 1⟩, 100⟩) ∧
    (estimate_finish { waiting_model with confirmation_request_time := 15 } 20
        ⟨some 15, some 1⟩ 100 ⟨false, 0⟩).1 =
      EFResult.ok (some ⟨⟨some 20, some 1⟩, 100⟩) ∧
    (estimate_finish waiting_model 20 ⟨some 15, some 1⟩ 100 ⟨false, 0⟩).1 =
      EFResult.ok (some ⟨⟨some 20, some 1⟩, 100⟩) := by
  refine ⟨by decide, by decide, by decide, by decide, by decide, by decide⟩

/-- C3: a successful call in the waiting phase advances the state time by
exactly one initial wait duration and finishes at the given earliest
arrival time; a successful call after confirmation leaves the state time
unchanged and finishes at the state's own time. -/
theorem c3_success_shapes (m : Model) (now : Int) (state : RMFState)
    (eat : Int) (c : Constraints) (t : Int) (ht : state.time = some t) :
    (m.confirmation_received = false →
      now - m.confirmation_request_time ≤ m.timeout_duration →
      ∀ e, (estimate_finish m now state eat c).1 = EFResult.ok (some e) →
        e.finish_state.time = some (t + m.initial_wait_duration) ∧
        e.wait_until = eat) ∧
    (m.confirmation_received = true →
      ∀ e, (estimate_finish m now state eat c).1 = EFResult.ok (some e) →
        e.finish_state.time = some t ∧ e.wait_until = t) := by
  constructor
  · intro h1 h2 e he
    cases hb : state.battery_soc with
    | none =>
      rw [ef_unconfirmed_no_battery m now state eat c h1 h2 t ht hb] at he
      simp at he
    | some soc =>
      cases hdrain : c.drain_battery
      · rw [ef_unconfirmed_live_nodrain m now state eat c h1 h2 hdrain
          t soc ht hb] at he
        split at he
        · simp at he
        · simp only [EFResult.ok.injEq, Option.some.injEq] at he
          subst he
          exact ⟨rfl, rfl⟩
      · rw [ef_unconfirmed_live_drain m now state eat c h1 h2 hdrain
          t soc ht hb] at he
        split at he
        · simp at he
        · split at he
          · simp at he
          · simp only [EFResult.ok.injEq, Option.some.injEq] at he
            subst he
            exact ⟨rfl, rfl⟩
  · intro h1 e he
    cases hb : state.battery_soc with
    | none =>
      rw [ef_confirmed_no_battery m now state eat c h1 hb] at he
      simp at he
    | some soc =>
      cases hdrain : c.drain_battery
      · rw [ef_confirmed_nodrain m now state eat c h1 hdrain soc hb] at he
        rw [ht] at he
        split at he
        · simp at he
        · simp only [EFResult.ok.injEq, Option.some.injEq] at he
          subst he
          exact ⟨rfl, rfl⟩
      · rw [ef_confirmed_drain m now state eat c h1 hdrain soc hb] at he
        rw [ht] at he
        split at he
        · simp at he
        · split at he
          · simp at he
          · simp only [EFResult.ok.injEq, Option.some.injEq] at he
            subst he
            exact ⟨rfl, rfl⟩

/-- Witness for C3: the waiting clause at a concrete successful call. -/
theorem c3_success_shapes_witness :
    (⟨⟨some 5, some 1⟩, 100⟩ : Estimate).finish_state.time = some (0 + 5) ∧
    (⟨⟨some 5, some 1⟩, 100⟩ : Estimate).wait_until = 100 :=
  (c3_success_shapes waiting_model 5 ⟨some 0, some 1⟩ 100 ⟨false, 0⟩ 0
    rfl).1 rfl (by decide) ⟨⟨some 5, some 1⟩, 100⟩ (by decide)

/-- C5: on every call (waiting or confirmed) with both fields set and a
non-negative threshold, the two battery predicates each force `None`:
a post-drain SOC that is strictly negative, and a post-drain SOC at or
below the threshold (with `drain_battery = false` the post-drain SOC is
the SOC itself). -/
theorem c5_battery_predicates (m : Model) (now : Int) (state : RMFState)
    (eat : Int) (c : Constraints) (t : Int) (soc : ℚ)
    (ht : state.time = some t) (hb : state.battery_soc = some soc)
    (hthr : 0 ≤ c.threshold_soc) :
    ((if c.drain_battery then soc - m.invariant_battery_drain else soc) < 0 →
      (estimate_finish m now state eat c).1 = EFResult.ok none) ∧
    ((if c.drain_battery then soc - m.invariant_battery_drain else soc)
        ≤ c.threshold_soc →
      (estimate_finish m now state eat c).1 = EFResult.ok none) := by
  by_cases hflag : m.confirmation_received = true
  · cases hdrain : c.drain_battery
    · rw [ef_confirmed_nodrain m now state eat c hflag hdrain soc hb,
        if_neg Bool.false_ne_true]
      constructor
      · intro hneg
        rw [if_pos (le_trans hneg.le hthr)]
      · intro hle
        rw [if_pos hle]
    · rw [ef_confirmed_drain m now state eat c hflag hdrain soc hb, if_pos rfl]
      constructor
      · intro hneg
        rw [if_pos hneg]
      · intro hle
        by_cases hneg : soc - m.invariant_battery_drain < 0
        · rw [if_pos hneg]
        · rw [if_neg hneg, if_pos hle]
  · have hflag2 : m.confirmation_received = false := by simpa using hflag
    by_cases htmo : m.timeout_duration < now - m.confirmation_request_time
    · rw [ef_unconfirmed_timeout m now state eat c hflag2 htmo]
      exact ⟨fun _ => rfl, fun _ => rfl⟩
    · have hle2 : now - m.confirmation_request_time ≤ m.timeout_duration :=
        le_of_not_lt htmo
      cases hdrain : c.drain_battery
      · rw [ef_unconfirmed_live_nodrain m now state eat c hflag2 hle2 hdrain
          t soc ht hb, if_neg Bool.false_ne_true]
        constructor
        · intro hneg
          rw [if_pos (le_trans hneg.le hthr)]
        · intro hle
          rw [if_pos hle]
      · rw [ef_unconfirmed_live_drain m now state eat c hflag2 hle2 hdrain
          t soc ht hb, if_pos rfl]
        constructor
        · intro hneg
          rw [if_pos hneg]
        · intro hle
          by_cases hneg : soc - m.invariant_battery_drain < 0
          · rw [if_pos hneg]
          · rw [if_neg hneg, if_pos hle]

/-- Witness for C5: a concrete draining call whose post-drain SOC goes
negative is rejected. -/
theorem c5_battery_predicates_witness :
    (estimate_finish drain_model 5 ⟨some 0, some 0⟩ 0 ⟨true, 0⟩).1 =
      EFResult.ok none :=
  (c5_battery_predicates drain_model 5 ⟨some 0, some 0⟩ 0 ⟨true, 0⟩ 0 0
    rfl rfl (by norm_num)).1 (by norm_num [drain_model])
